import Mathlib

/-!
Shallow embedding of the fiducial-cut mini-language and the spill/exposure
accounting state machine of `EventGeneratorBase/GENIE/GENIEHelper.cxx`
(class `evgb::GENIEHelper`), together with theorems settling the spec
claims about them.  C++ doubles are modelled as rationals, C strings as
Lean strings or character lists, and the opaque GENIE collaborators
(flux drivers, `GMCJDriver`, `gRandom`, the geometry service) as per-call
oracle records.
-/

namespace evgb

/-- Whitespace set probed by the `find_first_not_of(" \t\n")` trimming calls. -/
def trimChars : List Char := [' ', '\t', '\n']

/-- Leading-whitespace trim, `fidcut.erase(0, fidcut.find_first_not_of(" \t\n"))`.
When the string is all whitespace `find_first_not_of` is `npos` and the erase
empties the string; `dropWhile` matches both behaviours. -/
def trimLeading (cs : List Char) : List Char :=
  cs.dropWhile (fun c => trimChars.contains c)

/-- ASCII `::tolower`, applied elementwise by `std::transform`. -/
def toLowerChar (c : Char) : Char :=
  if 65 ≤ c.toNat ∧ c.toNat ≤ 90 then Char.ofNat (c.toNat + 32) else c

/-- Substring occurrence, the `std::string::find(pat) != npos` test. -/
def subOccurs (pat : List Char) : List Char → Bool
  | [] => pat.isEmpty
  | c :: rest => pat.isPrefixOf (c :: rest) || subOccurs pat rest

/-- One pass of `genie::utils::str::Split`: split on any character of
`delims`, keeping empty fields (callers filter those out). -/
def splitAnyAux (delims : List Char) : List Char → List Char → List (List Char)
  | [], acc => [acc.reverse]
  | c :: rest, acc =>
    if delims.contains c then acc.reverse :: splitAnyAux delims rest []
    else splitAnyAux delims rest (c :: acc)

/-- `genie::utils::str::Split(input, delims)` on character lists. -/
def splitAny (delims cs : List Char) : List (List Char) :=
  splitAnyAux delims cs []

/-- Decimal digit test on a character code. -/
def isDigitCh (c : Char) : Bool := 48 ≤ c.toNat && c.toNat ≤ 57

/-- Read a run of decimal digits extending accumulator `acc`; returns the
value together with the unconsumed remainder. -/
def readNat (acc : ℕ) : List Char → ℕ × List Char
  | [] => (acc, [])
  | c :: cs =>
    if isDigitCh c then readNat (10 * acc + (c.toNat - 48)) cs else (acc, c :: cs)

/-- Read a fraction part: each digit extends the numerator and multiplies the
denominator by ten. -/
def readFrac (num den : ℕ) : List Char → ℕ × ℕ × List Char
  | [] => (num, den, [])
  | c :: cs =>
    if isDigitCh c then readFrac (10 * num + (c.toNat - 48)) (10 * den) cs
    else (num, den, c :: cs)

/-- Exponent suffix of a C float literal, the `e`/`E` already consumed. -/
def expFactor (cs : List Char) : ℚ :=
  match cs with
  | '-' :: r => 1 / (10 : ℚ) ^ (readNat 0 r).1
  | '+' :: r => (10 : ℚ) ^ (readNat 0 r).1
  | r => (10 : ℚ) ^ (readNat 0 r).1

/-- Modelled from the spec: `atof` of the C library (an external collaborator;
the spec says values are "parsed left-to-right" into doubles).  Handles the
forms the cut grammar feeds it: optional sign, digits, optional fraction and
exponent; a token with no numeric prefix evaluates to 0 exactly as `atof`
does. -/
def atofQ (cs0 : List Char) : ℚ :=
  let cs1 := cs0.dropWhile
    (fun c => [' ', '\t', '\n', Char.ofNat 11, Char.ofNat 12, '\r'].contains c)
  let signRest : Bool × List Char :=
    match cs1 with
    | '-' :: r => (true, r)
    | '+' :: r => (false, r)
    | r => (false, r)
  let ipRest := readNat 0 signRest.2
  let fracRest : ℕ × ℕ × List Char :=
    match ipRest.2 with
    | '.' :: r => readFrac ipRest.1 1 r
    | r => (ipRest.1, 1, r)
  let mant : ℚ := (fracRest.1 : ℚ) / (fracRest.2.1 : ℚ)
  let v : ℚ :=
    match fracRest.2.2 with
    | 'e' :: r => mant * expFactor r
    | 'E' :: r => mant * expFactor r
    | _ => mant
  if signRest.1 then -v else v

/-- The value-list delimiters of the cut grammar: space, comma, semicolon,
parentheses, braces and brackets. -/
def valDelims : List Char :=
  [' ', ',', ';', '(', ')', Char.ofNat 123, Char.ofNat 125, '[', ']']

/-- Parse the post-colon value list: split on `valDelims`, drop empty tokens,
`atof` each remaining token (GENIEHelper.cxx:577-582). -/
def parseVals (cs : List Char) : List ℚ :=
  ((splitAny valDelims cs).filter (fun t => !t.isEmpty)).map atofQ

/-- C cast of a double to `int`: truncation toward zero. -/
def truncQ (q : ℚ) : ℤ := if 0 ≤ q then ⌊q⌋ else ⌈q⌉

/-- Fiducial shape handed to the GENIE `GeomVolSelectorFiducial` Make calls,
with the argument values exactly as `InitializeFiducialSelection` passes
them (GENIEHelper.cxx:596-633). -/
inductive FidShape
  | zcyl (x0 y0 r zmin zmax : ℚ)
  | box (xyzmin xyzmax : ℚ × ℚ × ℚ)
  | zpoly (nfaces : ℤ) (x0 y0 rin phi zmin zmax : ℚ)
  | sphere (x0 y0 z0 r : ℚ)
  | noShape
  deriving DecidableEq

/-- A configured fiducial selector: the shape, the `SetReverseFiducial` flag
(spec keyword `0`), the `ConvertShapeMaster2Top` flag (keyword `m`), and
whether a value-count `LogError` was emitted while building it. -/
structure FidSel where
  shape : FidShape
  reverse : Bool
  master : Bool
  valueCountError : Bool
  deriving DecidableEq

/-- Effects of `GENIEHelper::InitializeRockBoxSelection`
(GENIEHelper.cxx:649-734): the corners given to `SetRockBoxMinimal`, the
rock-only flag, the `SetMinimumWall` value, the value passed to `SetDeDx`
(already divided by the fudge factor), whether the tiny exclusion sphere
replaced the `MakeBox` call, and whether `fTopVolume` was forced to
`fWorldVolume` (with `SetTopVolName`) before the selector was adopted. -/
structure RockSel where
  xyzmin : ℚ × ℚ × ℚ
  xyzmax : ℚ × ℚ × ℚ
  rockonly : Bool
  wallmin : ℚ
  dedxOverFudge : ℚ
  tinyBubble : Bool
  topVolForcedToWorld : Bool
  deriving DecidableEq

/-- Observable outcome of fiducial-selection initialization:
`noop` is the clean early return for an empty or `none` cut; `skipWarn`
is the `LogWarning` path that installs nothing (no colon in the spec);
`rockSkipWarn` and `rockFatal` are the corresponding rock-box paths
(the latter the `assert(nvals>=6)` abort); the two `installed` forms
record the selector adopted by the geometry driver. -/
inductive FidOutcome
  | noop
  | skipWarn
  | rockSkipWarn
  | rockFatal
  | rockInstalled (r : RockSel)
  | installed (sel : FidSel)
  deriving DecidableEq

/-- Keyword `none`. -/
def noneKw : List Char := ['n', 'o', 'n', 'e']

/-- Keyword `rock`. -/
def rockKw : List Char := ['r', 'o', 'c', 'k']

/-- Keyword `zcyl`. -/
def zcylKw : List Char := ['z', 'c', 'y', 'l']

/-- Keyword `box`. -/
def boxKw : List Char := ['b', 'o', 'x']

/-- Keyword `zpoly`. -/
def zpolyKw : List Char := ['z', 'p', 'o', 'l', 'y']

/-- Keyword `sphere`. -/
def sphereKw : List Char := ['s', 'p', 'h', 'e', 'r', 'e']

/-- `GENIEHelper::InitializeRockBoxSelection` (GENIEHelper.cxx:649-734).
Trims leading whitespace and lowercases the cut, splits on the colon,
parses the value list, forces the top volume to the world volume, asserts
at least six values, reads the optional rock-only flag (a double used as a
boolean, so nonzero means true), wall distance, loss rate and fudge
factor, and installs the rock-box selector. -/
def InitializeRockBoxSelection (fidcutRaw : String) : FidOutcome :=
  let fidcut := (trimLeading fidcutRaw.data).map toLowerChar
  let strtok := splitAny [':'] fidcut
  if strtok.length ≠ 2 then FidOutcome.rockSkipWarn
  else
    let vals := parseVals (strtok.getD 1 [])
    let nvals := vals.length
    if nvals < 6 then FidOutcome.rockFatal
    else
      let v := fun i => vals.getD i 0
      let rockonly : Bool := if 7 ≤ nvals then decide (¬ v 6 = 0) else true
      let wallmin : ℚ := if 8 ≤ nvals then v 7 else 800
      let dedx : ℚ := if 9 ≤ nvals then v 8 else (5 / 2) * (17 / 10000)
      let fudge : ℚ := if 10 ≤ nvals then v 9 else 21 / 20
      FidOutcome.rockInstalled
        { xyzmin := (v 0, v 1, v 2)
          xyzmax := (v 3, v 4, v 5)
          rockonly := rockonly
          wallmin := wallmin
          dedxOverFudge := dedx / fudge
          tinyBubble := !rockonly
          topVolForcedToWorld := true }

/-- `GENIEHelper::InitializeFiducialSelection` (GENIEHelper.cxx:494-646).
Trims leading whitespace, lowercases, returns cleanly on an empty or
`none` cut, dispatches any cut containing `rock` to the rock-box routine,
otherwise splits on the colon, parses the value list (padded with zeros to
at least seven entries), and probes the pre-colon token for the shape
keywords in the fixed order zcyl, box, zpoly, sphere.  The box max corner
is built from `vals[4], vals[5], vals[5]` exactly as line 609 does. -/
def InitializeFiducialSelection (fidcutRaw : String) : FidOutcome :=
  let fidcut := (trimLeading fidcutRaw.data).map toLowerChar
  if fidcut = [] ∨ fidcut = noneKw then FidOutcome.noop
  else if subOccurs rockKw fidcut then InitializeRockBoxSelection fidcutRaw
  else
    let strtok := splitAny [':'] fidcut
    if strtok.length ≠ 2 then FidOutcome.skipWarn
    else
      let stype := strtok.getD 0 []
      let reverse := subOccurs ['0'] stype
      let master := subOccurs ['m'] stype
      let vals0 := parseVals (strtok.getD 1 [])
      let nvals := vals0.length
      let vals := vals0 ++ List.replicate (7 - nvals) 0
      let v := fun i => vals.getD i 0
      if subOccurs zcylKw stype then
        FidOutcome.installed
          ⟨FidShape.zcyl (v 0) (v 1) (v 2) (v 3) (v 4), reverse, master,
            decide (nvals < 5)⟩
      else if subOccurs boxKw stype then
        FidOutcome.installed
          ⟨FidShape.box (v 0, v 1, v 2) (v 4, v 5, v 5), reverse, master,
            decide (nvals < 6)⟩
      else if subOccurs zpolyKw stype then
        FidOutcome.installed
          ⟨FidShape.zpoly (truncQ (v 0)) (v 1) (v 2) (v 3) (v 4) (v 5) (v 6),
            reverse, master, decide (nvals < 7) || decide (truncQ (v 0) < 3)⟩
      else if subOccurs sphereKw stype then
        FidOutcome.installed
          ⟨FidShape.sphere (v 0) (v 1) (v 2) (v 3), reverse, master,
            decide (nvals < 4)⟩
      else
        FidOutcome.installed ⟨FidShape.noShape, reverse, master, true⟩

/-- Analytic box inclusion: componentwise `min3 <= p <= max3`. -/
def inBox (mn mx p : ℚ × ℚ × ℚ) : Prop :=
  mn.1 ≤ p.1 ∧ p.1 ≤ mx.1 ∧ mn.2.1 ≤ p.2.1 ∧ p.2.1 ≤ mx.2.1 ∧
    mn.2.2 ≤ p.2.2 ∧ p.2.2 ≤ mx.2.2

instance (mn mx p : ℚ × ℚ × ℚ) : Decidable (inBox mn mx p) :=
  inferInstanceAs (Decidable (_ ∧ _ ∧ _ ∧ _ ∧ _ ∧ _))

/-- Modelled from the spec: the membership decision of an installed GENIE box
selector (`GeomVolSelectorFiducial` lives in GENIE, outside src/); the spec
requires it to "match an independently computed analytic inclusion test for
that shape, negated correctly when the invert flag is set". -/
def boxAccepts (mn mx : ℚ × ℚ × ℚ) (reverse : Bool) (p : ℚ × ℚ × ℚ) : Bool :=
  Bool.xor reverse (decide (inBox mn mx p))

/-! The spill/exposure accounting state machine: `GENIEHelper::Stop`
(GENIEHelper.cxx:1044-1094), `GENIEHelper::Sample` (1097-1218) and the
relevant parts of the constructor and `Initialize`. -/

/-- The configuration fields of `GENIEHelper` that `Stop` and `Sample` read.
`piConst` stands for `TMath::Pi()`, kept as an arbitrary positive rational
parameter since the exact constant is irrational (the doubles of the C++
code are modelled as rationals throughout). -/
structure Config where
  fluxType : String
  eventsPerSpill : ℚ
  potPerSpill : ℚ
  atmoRt : ℚ
  piConst : ℚ
  topVolume : String
  worldVolume : String
  deriving DecidableEq

/-- The mutable spill counters: `fSpillEvents`, `fSpillExposure`,
`fTotalExposure` and `fHistEventsPerSpill` (the Poisson draws of
`gRandom->Poisson` are nonnegative integers, stored in a double by the
code). -/
structure SpillState where
  spillEvents : ℕ
  spillExposure : ℚ
  totalExposure : ℚ
  histEventsPerSpill : ℕ
  deriving DecidableEq

/-- The geometry service's current top volume, global state that `Sample`
swaps (`gGeoManager->SetTopVolume`). -/
structure GeoState where
  currentTopVol : String
  deriving DecidableEq

/-- Counters after `GENIEHelper::Initialize` (GENIEHelper.cxx:454-457):
events, exposure and total all zeroed; the histogram spill target is
whatever Poisson draw (if any) initialization produced. -/
def initSpillState (h : ℕ) : SpillState :=
  { spillEvents := 0, spillExposure := 0, totalExposure := 0,
    histEventsPerSpill := h }

/-- Oracle inputs consumed by one `Stop` call: the atmospheric driver's
`NFluxNeutrinos()` and the `gRandom->Poisson` draw for the next histogram
spill target. -/
structure StopOracle where
  nFluxNeutrinos : ℕ
  poissonDraw : ℕ
  deriving DecidableEq

/-- Oracle inputs consumed by one `Sample` call: whether
`fDriver->GenerateEvent()` produced a record, the flux driver's cumulative
`UsedPOTs()` and the driver's `GlobProbScale()`. -/
structure SampleOracle where
  viable : Bool
  usedPOTs : ℚ
  globProbScale : ℚ
  deriving DecidableEq

/-- The two atmospheric flux types. -/
def isAtmoType (ft : String) : Prop := ft = "atmo_FLUKA" ∨ ft = "atmo_BARTOL"

instance (ft : String) : Decidable (isAtmoType ft) :=
  inferInstanceAs (Decidable (_ ∨ _))

/-- The two POT-driven ntuple flux types. -/
def NtupleLike (ft : String) : Prop := ft = "ntuple" ∨ ft = "simple_flux"

instance (ft : String) : Decidable (NtupleLike ft) :=
  inferInstanceAs (Decidable (_ ∨ _))

/-- The generation surface area `TMath::Pi() * fAtmoRt * fAtmoRt`. -/
def atmoArea (cfg : Config) : ℚ := cfg.piConst * cfg.atmoRt * cfg.atmoRt

/-- The atmospheric exposure formula of GENIEHelper.cxx:1081:
`1e4 * NFluxNeutrinos / (Pi * Rt * Rt)`. -/
def atmoTotal (cfg : Config) (n : ℕ) : ℚ := (10000 * (n : ℚ)) / atmoArea cfg

/-- Spill closure (the tail of `Stop`, GENIEHelper.cxx:1076-1093): the total
exposure is assigned the atmospheric formula for atmospheric sources and
accumulates `fSpillExposure` otherwise; the per-spill counters reset to
zero and the next histogram spill target is redrawn. -/
def closeSpill (cfg : Config) (o : StopOracle) (s : SpillState) :
    Bool × SpillState :=
  (true,
    { spillEvents := 0
      spillExposure := 0
      totalExposure :=
        if isAtmoType cfg.fluxType then atmoTotal cfg o.nFluxNeutrinos
        else s.totalExposure + s.spillExposure
      histEventsPerSpill := o.poissonDraw })

/-- `GENIEHelper::Stop` (GENIEHelper.cxx:1044-1094): decide whether the spill
is complete; when it is, commit the closure bookkeeping of `closeSpill`.
For histogram sources the exposure is forced to `fPOTPerSpill` just before
closure. -/
def Stop (cfg : Config) (o : StopOracle) (s : SpillState) : Bool × SpillState :=
  if isAtmoType cfg.fluxType then
    if 0 < cfg.eventsPerSpill ∧ (s.spillEvents : ℚ) < cfg.eventsPerSpill then
      (false, s)
    else closeSpill cfg o s
  else if 0 < cfg.eventsPerSpill then
    if (s.spillEvents : ℚ) < cfg.eventsPerSpill then (false, s)
    else closeSpill cfg o s
  else if NtupleLike cfg.fluxType ∧ s.spillExposure < cfg.potPerSpill then
    (false, s)
  else if cfg.fluxType = "histogram" then
    if s.spillEvents < s.histEventsPerSpill then (false, s)
    else closeSpill cfg o { s with spillExposure := cfg.potPerSpill }
  else closeSpill cfg o s

/-- `GENIEHelper::Sample` (GENIEHelper.cxx:1097-1218), restricted to the
state it mutates.  The geometry's top volume is swapped to `fTopVolume` at
entry (line 1101); for the two ntuple flux types the spill exposure is set
to `UsedPOTs()/GlobProbScale() - fTotalExposure` before the viability test
(lines 1113-1130); a non-viable record returns false right there (1133),
leaving the top volume un-restored; on success the spill event counter is
bumped per source type and the top volume is restored to `fWorldVolume`
(1215) before returning true. -/
def Sample (cfg : Config) (o : SampleOracle) (s : SpillState) (_g : GeoState) :
    Bool × SpillState × GeoState :=
  let g1 : GeoState := { currentTopVol := cfg.topVolume }
  let s1 : SpillState :=
    if cfg.fluxType = "ntuple" then
      { s with spillExposure := o.usedPOTs / o.globProbScale - s.totalExposure }
    else if cfg.fluxType = "simple_flux" then
      { s with spillExposure := o.usedPOTs / o.globProbScale - s.totalExposure }
    else s
  if o.viable then
    let s2 :=
      if 0 < cfg.eventsPerSpill ∧ NtupleLike cfg.fluxType then
        { s1 with spillEvents := s1.spillEvents + 1 }
      else s1
    let s3 :=
      if cfg.fluxType = "histogram" then
        { s2 with spillEvents := s2.spillEvents + 1 }
      else if cfg.fluxType = "mono" then
        { s2 with spillEvents := s2.spillEvents + 1 }
      else if isAtmoType cfg.fluxType then
        if 0 < cfg.eventsPerSpill then
          { s2 with spillEvents := s2.spillEvents + 1 }
        else s2
      else s2
    (true, s3, { currentTopVol := cfg.worldVolume })
  else (false, s1, g1)

/-- The constructor forces `fEventsPerSpill = 1` for monoenergetic
generation (GENIEHelper.cxx:327-328) and leaves the configured value
otherwise. -/
def ctorEventsPerSpill (fluxType : String) (configured : ℚ) : ℚ :=
  if fluxType = "mono" then 1 else configured

/-- Outcome of the atmospheric configuration checks in the constructor. -/
inductive CtorOutcome
  | ok
  | fatalFlavorFileMismatch
  | fatalEventsPerSpill
  | fatalUnknownAtmo
  deriving DecidableEq

/-- The atmospheric checks of the constructor (GENIEHelper.cxx:254-288),
run before any sampling: for a flux type containing `atmo`, `exit(1)` when
the configured flavor count differs from the resolved flux-file count,
then when `fEventsPerSpill != 1`, then when the type is neither
`atmo_FLUKA` nor `atmo_BARTOL`. -/
def atmoCtorCheck (fluxType : String) (nGenFlavors nFluxFiles : ℕ)
    (eventsPerSpill : ℚ) : CtorOutcome :=
  if subOccurs ['a', 't', 'm', 'o'] fluxType.data then
    if nGenFlavors ≠ nFluxFiles then CtorOutcome.fatalFlavorFileMismatch
    else if eventsPerSpill ≠ 1 then CtorOutcome.fatalEventsPerSpill
    else if fluxType = "atmo_FLUKA" then CtorOutcome.ok
    else if fluxType = "atmo_BARTOL" then CtorOutcome.ok
    else CtorOutcome.fatalUnknownAtmo
  else CtorOutcome.ok

/-- The flux types for which `TotalHistFlux` returns the sentinel
(GENIEHelper.cxx:411-413). -/
def sentinelFluxType (ft : String) : Prop :=
  ft = "ntuple" ∨ ft = "mono" ∨ ft = "simple_flux"

instance (ft : String) : Decidable (sentinelFluxType ft) :=
  inferInstanceAs (Decidable (_ ∨ _ ∨ _))

/-- The flavors for which the constructor's histogram block loads a flux
histogram (GENIEHelper.cxx:304-311). -/
def histFlavorKnown (f : ℤ) : Bool :=
  f == 12 || f == -12 || f == 14 || f == -14 || f == 16 || f == -16

/-- The flavors whose histograms the constructor loads: the recognized ones,
in iteration order, and only when the flux type is `histogram`
(GENIEHelper.cxx:291-321). -/
def loadedHistFlavors (ft : String) (flavors : List ℤ) : List ℤ :=
  if ft = "histogram" then flavors.filter histFlavorKnown else []

/-- Modelled from the spec: the initial value of the accumulator
`fTotalHistFlux` (its in-class declaration lives in the header revision
matching this .cxx, which is not under src/); the spec's Histogram contract
"sums their integrals into a total reference flux" fixes the start at 0,
after which GENIEHelper.cxx:313-316 adds `Integral()` of each loaded
histogram (`integral` maps a flavor to its histogram's integral). -/
def ctorTotalHistFlux (ft : String) (flavors : List ℤ) (integral : ℤ → ℚ) : ℚ :=
  ((loadedHistFlavors ft flavors).map integral).sum

/-- `GENIEHelper::TotalHistFlux` (GENIEHelper.cxx:409-416): the sentinel
`-999` for the ntuple, mono and simple_flux types, the stored
`fTotalHistFlux` otherwise. -/
def TotalHistFlux (ft : String) (totalHistFlux : ℚ) : ℚ :=
  if sentinelFluxType ft then -999 else totalHistFlux

/-! Traces of `Sample` and `Stop` calls, and the exposure-monotonicity
invariant. -/

/-- One event of a run: a `Sample` call or a `Stop` call, each carrying the
oracle values its opaque collaborators produce. -/
inductive Ev
  | sampleEv (o : SampleOracle)
  | stopEv (o : StopOracle)
  deriving DecidableEq

/-- Run a sequence of events, threading the spill counters and the geometry
top-volume state. -/
def runEvs (cfg : Config) : List Ev → SpillState × GeoState → SpillState × GeoState
  | [], sg => sg
  | Ev.sampleEv o :: rest, sg =>
    let r := Sample cfg o sg.1 sg.2
    runEvs cfg rest (r.2.1, r.2.2)
  | Ev.stopEv o :: rest, sg => runEvs cfg rest ((Stop cfg o sg.1).2, sg.2)

/-- The driver-corrected exposure `UsedPOTs()/GlobProbScale()` reported by a
`Sample` oracle. -/
def corrected (o : SampleOracle) : ℚ := o.usedPOTs / o.globProbScale

/-- Well-behaved oracle sequence: `GlobProbScale` is positive, the
driver-corrected cumulative exposure never decreases across `Sample` calls
(starting from `c`), and `NFluxNeutrinos` never decreases across `Stop`
calls (starting from `n`) — both are running totals of the opaque flux
drivers. -/
def goodTrace (c : ℚ) (n : ℕ) : List Ev → Prop
  | [] => True
  | Ev.sampleEv o :: rest =>
    0 < o.globProbScale ∧ c ≤ corrected o ∧ goodTrace (corrected o) n rest
  | Ev.stopEv o :: rest => n ≤ o.nFluxNeutrinos ∧ goodTrace c o.nFluxNeutrinos rest

/-- Last driver-corrected exposure seen along a trace. -/
def traceC (c : ℚ) : List Ev → ℚ
  | [] => c
  | Ev.sampleEv o :: rest => traceC (corrected o) rest
  | Ev.stopEv _ :: rest => traceC c rest

/-- Last `NFluxNeutrinos` value seen along a trace. -/
def traceN (n : ℕ) : List Ev → ℕ
  | [] => n
  | Ev.sampleEv _ :: rest => traceN n rest
  | Ev.stopEv o :: rest => traceN o.nFluxNeutrinos rest

/-- Configuration sanity: nonnegative POT target per spill and a positive
generation surface area (`TMath::Pi()` and `fAtmoRt` positive). -/
def ConfigOK (cfg : Config) : Prop :=
  0 ≤ cfg.potPerSpill ∧ 0 < cfg.piConst ∧ 0 < cfg.atmoRt

/-- State invariant tying the spill counters to the driver running totals:
the booked total exposure is nonnegative; for the ntuple types it and the
pending spill exposure partition the last driver-corrected exposure `c`;
for atmospheric types it is bounded by the atmospheric formula at the last
`NFluxNeutrinos` value `n`; every non-ntuple type keeps the pending spill
exposure at zero. -/
def SpillInv (cfg : Config) (c : ℚ) (n : ℕ) (s : SpillState) : Prop :=
  0 ≤ s.totalExposure ∧
  (NtupleLike cfg.fluxType →
    s.totalExposure + s.spillExposure = c ∧ s.totalExposure ≤ c) ∧
  (isAtmoType cfg.fluxType → s.totalExposure ≤ atmoTotal cfg n) ∧
  (¬ NtupleLike cfg.fluxType → s.spillExposure = 0)

lemma atmoArea_pos (cfg : Config) (h : ConfigOK cfg) : 0 < atmoArea cfg :=
  mul_pos (mul_pos h.2.1 h.2.2) h.2.2

lemma atmoTotal_nonneg (cfg : Config) (h : ConfigOK cfg) (n : ℕ) :
    0 ≤ atmoTotal cfg n :=
  div_nonneg (by positivity) (atmoArea_pos cfg h).le

lemma atmoTotal_mono (cfg : Config) (h : ConfigOK cfg) {n m : ℕ} (hnm : n ≤ m) :
    atmoTotal cfg n ≤ atmoTotal cfg m := by
  unfold atmoTotal
  refine (div_le_div_iff_of_pos_right (atmoArea_pos cfg h)).mpr ?_
  have : (n : ℚ) ≤ (m : ℚ) := by exact_mod_cast hnm
  linarith

lemma not_ntupleLike_of_atmo {ft : String} (h : isAtmoType ft) :
    ¬ NtupleLike ft := by
  rcases h with h | h <;> subst h <;> rintro (h2 | h2) <;> exact absurd h2 (by decide)

lemma initSpillState_inv (cfg : Config) (h : ℕ) :
    SpillInv cfg 0 0 (initSpillState h) := by
  refine ⟨le_refl 0, fun _ => ⟨by simp [initSpillState], le_refl 0⟩,
    fun _ => ?_, fun _ => rfl⟩
  simp [initSpillState, atmoTotal]

lemma Sample_totalExposure_eq (cfg : Config) (o : SampleOracle) (s : SpillState)
    (g : GeoState) : (Sample cfg o s g).2.1.totalExposure = s.totalExposure := by
  unfold Sample
  split_ifs <;> rfl

lemma Sample_spillExposure_eq (cfg : Config) (o : SampleOracle) (s : SpillState)
    (g : GeoState) :
    (Sample cfg o s g).2.1.spillExposure =
      if NtupleLike cfg.fluxType then corrected o - s.totalExposure
      else s.spillExposure := by
  unfold Sample corrected NtupleLike
  split_ifs <;> simp_all

lemma Sample_inv (cfg : Config) (o : SampleOracle) (s : SpillState)
    (g : GeoState) (c : ℚ) (n : ℕ) (hc : c ≤ corrected o)
    (hI : SpillInv cfg c n s) :
    SpillInv cfg (corrected o) n (Sample cfg o s g).2.1 ∧
      s.totalExposure ≤ (Sample cfg o s g).2.1.totalExposure := by
  obtain ⟨h0, hnt, hat, hoth⟩ := hI
  have ht := Sample_totalExposure_eq cfg o s g
  have hsp := Sample_spillExposure_eq cfg o s g
  refine ⟨⟨ht ▸ h0, fun hN => ?_, fun hA => ?_, fun hN => ?_⟩, ht ▸ le_refl _⟩
  · rw [ht, hsp, if_pos hN]
    exact ⟨by ring, le_trans (le_trans (hnt hN).2 hc) (le_refl _)⟩
  · rw [ht]; exact hat hA
  · rw [hsp, if_neg hN]; exact hoth hN

lemma SpillInv_mono_n (cfg : Config) (hcfg : ConfigOK cfg) {c : ℚ} {n m : ℕ}
    (hnm : n ≤ m) {s : SpillState} (hI : SpillInv cfg c n s) :
    SpillInv cfg c m s :=
  ⟨hI.1, hI.2.1,
    fun hA => le_trans (hI.2.2.1 hA) (atmoTotal_mono cfg hcfg hnm), hI.2.2.2⟩

lemma closeSpill_inv_nonatmo (cfg : Config) (o : StopOracle)
    (c : ℚ) (n : ℕ) (s : SpillState) (hna : ¬ isAtmoType cfg.fluxType)
    (hnt : NtupleLike cfg.fluxType → s.totalExposure + s.spillExposure = c)
    (hsp : 0 ≤ s.spillExposure) (h0 : 0 ≤ s.totalExposure) :
    SpillInv cfg c n (closeSpill cfg o s).2 ∧
      s.totalExposure ≤ (closeSpill cfg o s).2.totalExposure := by
  unfold closeSpill SpillInv
  simp only [if_neg hna]
  exact ⟨⟨by linarith, fun hN => ⟨by rw [add_zero]; exact hnt hN,
      le_of_eq (hnt hN)⟩,
    fun hA => absurd hA hna, fun _ => trivial⟩, by linarith⟩

lemma closeSpill_inv_atmo (cfg : Config) (o : StopOracle) (hcfg : ConfigOK cfg)
    (c : ℚ) (n : ℕ) (s : SpillState) (ha : isAtmoType cfg.fluxType)
    (hat : s.totalExposure ≤ atmoTotal cfg n) (hn : n ≤ o.nFluxNeutrinos) :
    SpillInv cfg c o.nFluxNeutrinos (closeSpill cfg o s).2 ∧
      s.totalExposure ≤ (closeSpill cfg o s).2.totalExposure := by
  unfold closeSpill SpillInv
  simp only [if_pos ha]
  exact ⟨⟨atmoTotal_nonneg cfg hcfg _,
      fun hN => absurd hN (not_ntupleLike_of_atmo ha),
      fun _ => le_refl _, fun _ => trivial⟩,
    le_trans hat (atmoTotal_mono cfg hcfg hn)⟩

lemma Stop_inv (cfg : Config) (o : StopOracle) (s : SpillState) (c : ℚ) (n : ℕ)
    (hcfg : ConfigOK cfg) (hn : n ≤ o.nFluxNeutrinos)
    (hI : SpillInv cfg c n s) :
    SpillInv cfg c o.nFluxNeutrinos (Stop cfg o s).2 ∧
      s.totalExposure ≤ (Stop cfg o s).2.totalExposure := by
  obtain ⟨h0, hnt, hat, hoth⟩ := hI
  have hspill : 0 ≤ s.spillExposure := by
    by_cases hN : NtupleLike cfg.fluxType
    · have := hnt hN; linarith [(hnt hN).1, (hnt hN).2]
    · rw [hoth hN]
  unfold Stop
  split_ifs with h1 h2 h3 h4 h5 h6 h7
  · exact ⟨SpillInv_mono_n cfg hcfg hn ⟨h0, hnt, hat, hoth⟩, le_refl _⟩
  · exact closeSpill_inv_atmo cfg o hcfg c n s h1 (hat h1) hn
  · exact ⟨SpillInv_mono_n cfg hcfg hn ⟨h0, hnt, hat, hoth⟩, le_refl _⟩
  · exact closeSpill_inv_nonatmo cfg o c o.nFluxNeutrinos s h1
      (fun hN => (hnt hN).1) hspill h0
  · exact ⟨SpillInv_mono_n cfg hcfg hn ⟨h0, hnt, hat, hoth⟩, le_refl _⟩
  · exact ⟨SpillInv_mono_n cfg hcfg hn ⟨h0, hnt, hat, hoth⟩, le_refl _⟩
  · refine closeSpill_inv_nonatmo cfg o c o.nFluxNeutrinos _ h1
      (fun hN => absurd hN ?_) hcfg.1 h0
    rw [h6]; rintro (h | h) <;> exact absurd h (by decide)
  · exact closeSpill_inv_nonatmo cfg o c o.nFluxNeutrinos s h1
      (fun hN => (hnt hN).1) hspill h0

lemma runEvs_append (cfg : Config) (xs ys : List Ev) :
    ∀ sg : SpillState × GeoState,
      runEvs cfg (xs ++ ys) sg = runEvs cfg ys (runEvs cfg xs sg) := by
  induction xs with
  | nil => intro sg; rfl
  | cons e rest ih =>
    intro sg
    cases e with
    | sampleEv o => simp only [List.cons_append, runEvs]; exact ih _
    | stopEv o => simp only [List.cons_append, runEvs]; exact ih _

lemma goodTrace_append (ys : List Ev) :
    ∀ (xs : List Ev) (c : ℚ) (n : ℕ), goodTrace c n (xs ++ ys) →
      goodTrace c n xs ∧ goodTrace (traceC c xs) (traceN n xs) ys := by
  intro xs
  induction xs with
  | nil => intro c n h; exact ⟨trivial, h⟩
  | cons e rest ih =>
    intro c n h
    cases e with
    | sampleEv o =>
      obtain ⟨h1, h2, h3⟩ := h
      obtain ⟨h4, h5⟩ := ih _ _ h3
      exact ⟨⟨h1, h2, h4⟩, h5⟩
    | stopEv o =>
      obtain ⟨h1, h2⟩ := h
      obtain ⟨h3, h4⟩ := ih _ _ h2
      exact ⟨⟨h1, h3⟩, h4⟩

lemma runEvs_inv (cfg : Config) (hcfg : ConfigOK cfg) :
    ∀ (evs : List Ev) (c : ℚ) (n : ℕ) (s : SpillState) (g : GeoState),
      goodTrace c n evs → SpillInv cfg c n s →
      SpillInv cfg (traceC c evs) (traceN n evs) (runEvs cfg evs (s, g)).1 ∧
        s.totalExposure ≤ (runEvs cfg evs (s, g)).1.totalExposure := by
  intro evs
  induction evs with
  | nil => intro c n s g _ hI; exact ⟨hI, le_refl _⟩
  | cons e rest ih =>
    intro c n s g ht hI
    cases e with
    | sampleEv o =>
      obtain ⟨hps, hc, ht2⟩ := ht
      have hstep := Sample_inv cfg o s g c n hc hI
      have hrec := ih (corrected o) n (Sample cfg o s g).2.1
        (Sample cfg o s g).2.2 ht2 hstep.1
      exact ⟨hrec.1, le_trans hstep.2 hrec.2⟩
    | stopEv o =>
      obtain ⟨hn, ht2⟩ := ht
      have hstep := Stop_inv cfg o s c n hcfg hn hI
      have hrec := ih c o.nFluxNeutrinos (Stop cfg o s).2 g ht2 hstep.1
      exact ⟨hrec.1, le_trans hstep.2 hrec.2⟩

/-! Concrete configurations used by witnesses and counterexamples. -/

/-- A monoenergetic configuration: the constructor forces one event per
spill for it. -/
def cfgMono : Config :=
  { fluxType := "mono", eventsPerSpill := 1, potPerSpill := 5, atmoRt := 1,
    piConst := 3, topVolume := "volDet", worldVolume := "volWorld" }

/-- An ntuple configuration in POT-per-spill mode. -/
def cfgNtuple : Config :=
  { fluxType := "ntuple", eventsPerSpill := 0, potPerSpill := 5, atmoRt := 1,
    piConst := 3, topVolume := "volDet", worldVolume := "volWorld" }

/-! The claim theorems. -/

/-- C1: the claim says a box cut spec with values v0..v5 installs the box
with minimum corner (v0,v1,v2) and maximum corner (v3,v4,v5).  The code
(GENIEHelper.cxx:609) instead builds the maximum corner from
`vals[4], vals[5], vals[5]`, contradicting its own grammar comment at line
528: the spec `box:0,0,0,1,2,3` installs corners (0,0,0)-(2,3,3), and the
point (3/2, 5/2, 5/2) is accepted by the installed box although the
analytic test against the specified box (0,0,0)-(1,2,3) rejects it. -/
theorem c1_box_corner_slip :
    InitializeFiducialSelection "box:0,0,0,1,2,3" =
      FidOutcome.installed
        ⟨FidShape.box (0, 0, 0) (2, 3, 3), false, false, false⟩ ∧
    boxAccepts (0, 0, 0) (2, 3, 3) false (3/2, 5/2, 5/2) = true ∧
    boxAccepts (0, 0, 0) (1, 2, 3) false (3/2, 5/2, 5/2) = false := by
  with_unfolding_all decide

/-- C2 counterexample: after one successful mono `Sample` from the
initialized state, `Stop` declares the spill complete, mutates the spill
state (resetting the event counter and redrawing the histogram target),
and an immediately repeated `Stop` returns a different boolean. -/
theorem c2_stop_not_idempotent_cex :
    (Stop cfgMono ⟨3, 4⟩
        (Sample cfgMono ⟨true, 0, 1⟩ (initSpillState 0) ⟨"volWorld"⟩).2.1).1
        = true ∧
    (Stop cfgMono ⟨3, 4⟩
        (Sample cfgMono ⟨true, 0, 1⟩ (initSpillState 0) ⟨"volWorld"⟩).2.1).2
        ≠ (Sample cfgMono ⟨true, 0, 1⟩ (initSpillState 0) ⟨"volWorld"⟩).2.1 ∧
    (Stop cfgMono ⟨3, 4⟩
        (Stop cfgMono ⟨3, 4⟩
          (Sample cfgMono ⟨true, 0, 1⟩ (initSpillState 0) ⟨"volWorld"⟩).2.1).2).1
        = false := by
  with_unfolding_all decide

/-- C2 amended: `Stop` is read-only and oracle-independent exactly on its
false branches: whenever a `Stop` call reports the spill still open, any
repeated call without an intervening `Sample` leaves the spill state
untouched and returns false again. -/
theorem c2_stop_false_frame (cfg : Config) (o o2 : StopOracle) (s : SpillState)
    (h : (Stop cfg o s).1 = false) : Stop cfg o2 s = (false, s) := by
  unfold Stop at h ⊢
  split_ifs at h ⊢ <;> simp_all [closeSpill]

/-- C2 witness: a mono configuration mid-spill reports false and the state
is preserved under repeated calls. -/
theorem c2_stop_false_frame_witness :
    Stop cfgMono ⟨9, 9⟩ (initSpillState 0) = (false, initSpillState 0) :=
  c2_stop_false_frame cfgMono ⟨0, 0⟩ ⟨9, 9⟩ (initSpillState 0)
    (by with_unfolding_all decide)

/-- C3: across any sequence of `Sample` and `Stop` calls after
`Initialize`, and for every flux-type variant, the accumulated total
exposure never decreases, provided the configuration is sane (nonnegative
POT target, positive generation surface) and the opaque flux drivers
report well-behaved running totals (positive probability scale,
non-decreasing corrected used-POTs and `NFluxNeutrinos`). -/
theorem c3_total_exposure_monotone (cfg : Config) (hcfg : ConfigOK cfg)
    (h : ℕ) (g : GeoState) (evs1 evs2 : List Ev)
    (ht : goodTrace 0 0 (evs1 ++ evs2)) :
    (runEvs cfg evs1 (initSpillState h, g)).1.totalExposure ≤
      (runEvs cfg (evs1 ++ evs2) (initSpillState h, g)).1.totalExposure := by
  obtain ⟨ht1, ht2⟩ := goodTrace_append evs2 evs1 0 0 ht
  have h1 := runEvs_inv cfg hcfg evs1 0 0 (initSpillState h) g ht1
    (initSpillState_inv cfg h)
  rw [runEvs_append]
  have h2 := runEvs_inv cfg hcfg evs2 (traceC 0 evs1) (traceN 0 evs1)
    (runEvs cfg evs1 (initSpillState h, g)).1
    (runEvs cfg evs1 (initSpillState h, g)).2 ht2 h1.1
  rw [Prod.mk.eta] at h2
  exact h2.2

/-- C3 witness: one viable ntuple sample followed by a spill-closure check
does not decrease the booked total exposure. -/
theorem c3_total_exposure_monotone_witness :
    (runEvs cfgNtuple [Ev.sampleEv ⟨true, 2, 1⟩]
        (initSpillState 0, ⟨"volWorld"⟩)).1.totalExposure ≤
      (runEvs cfgNtuple ([Ev.sampleEv ⟨true, 2, 1⟩] ++ [Ev.stopEv ⟨0, 0⟩])
        (initSpillState 0, ⟨"volWorld"⟩)).1.totalExposure :=
  c3_total_exposure_monotone cfgNtuple
    ⟨by norm_num [cfgNtuple], by norm_num [cfgNtuple], by norm_num [cfgNtuple]⟩
    0 ⟨"volWorld"⟩ [Ev.sampleEv ⟨true, 2, 1⟩] [Ev.stopEv ⟨0, 0⟩]
    ⟨by norm_num, by norm_num [corrected], by norm_num, trivial⟩

/-- C4: for the ntuple and simple_flux variants, a `Sample` call whose
generator produces no viable record returns false, yet first books the
spill exposure as the driver's corrected cumulative used exposure minus
the total already booked (and leaves the total and the event counter
untouched, and the geometry still on the detector top volume). -/
theorem c4_failed_sample_still_books_exposure (cfg : Config)
    (o : SampleOracle) (s : SpillState) (g : GeoState)
    (hft : NtupleLike cfg.fluxType) (hv : o.viable = false) :
    Sample cfg o s g =
      (false,
        { s with spillExposure :=
            o.usedPOTs / o.globProbScale - s.totalExposure },
        ⟨cfg.topVolume⟩) := by
  rcases hft with hf | hf <;> simp +decide [Sample, hf, hv]

/-- C4 witness: the concrete ntuple configuration, driver exposure 2 with
probability scale 1, and a failed generation. -/
theorem c4_failed_sample_still_books_exposure_witness :
    Sample cfgNtuple ⟨false, 2, 1⟩ (initSpillState 0) ⟨"volWorld"⟩ =
      (false,
        { initSpillState 0 with spillExposure :=
            (2 : ℚ) / 1 - (initSpillState 0).totalExposure },
        ⟨cfgNtuple.topVolume⟩) :=
  c4_failed_sample_still_books_exposure cfgNtuple ⟨false, 2, 1⟩
    (initSpillState 0) ⟨"volWorld"⟩ (Or.inl rfl) rfl

/-- C5 counterexample: the claim says the top volume is restored to the
world volume before `Sample` returns regardless of viability, but on the
failure path (GENIEHelper.cxx:1133) the function returns with the top
volume still set to the detector volume. -/
theorem c5_top_volume_restore_cex :
    (Sample cfgNtuple ⟨false, 2, 1⟩ (initSpillState 0)
        ⟨"volWorld"⟩).2.2.currentTopVol = cfgNtuple.topVolume ∧
    cfgNtuple.topVolume ≠ cfgNtuple.worldVolume ∧
    (Sample cfgNtuple ⟨false, 2, 1⟩ (initSpillState 0) ⟨"volWorld"⟩).1
      = false := by
  with_unfolding_all decide

/-- C5 amended: `Sample` always swaps the geometry's top volume to the
detector volume at entry; on return it is the world volume when a viable
interaction was produced and still the detector volume otherwise. -/
theorem c5_top_volume_swap (cfg : Config) (o : SampleOracle) (s : SpillState)
    (g : GeoState) :
    (Sample cfg o s g).2.2.currentTopVol =
      if o.viable then cfg.worldVolume else cfg.topVolume := by
  unfold Sample
  cases hv : o.viable <;> simp [hv]

/-- C6: for the atmospheric flux types the constructor aborts (before any
sampling is possible) whenever the configured flavor count differs from
the resolved flux-file count or the per-spill event target is not exactly
one. -/
theorem c6_atmo_ctor_fatal (ft : String) (nflav nfiles : ℕ) (e : ℚ)
    (hft : ft = "atmo_FLUKA" ∨ ft = "atmo_BARTOL")
    (hbad : nflav ≠ nfiles ∨ e ≠ 1) :
    atmoCtorCheck ft nflav nfiles e ≠ CtorOutcome.ok := by
  rcases hft with hf | hf <;> subst hf <;> unfold atmoCtorCheck <;>
    split_ifs with h0 hA hB <;> first | decide | tauto

/-- C6 witness: two flavors with one resolved file is fatal even with the
per-spill target at one. -/
theorem c6_atmo_ctor_fatal_witness :
    atmoCtorCheck "atmo_FLUKA" 2 1 1 ≠ CtorOutcome.ok :=
  c6_atmo_ctor_fatal "atmo_FLUKA" 2 1 1 (Or.inl rfl) (Or.inl (by decide))

/-- C7: the constructor forces the per-spill target of a mono
configuration to one, so the first viable `Sample` from the initialized
state succeeds with a spill event count of one, and the `Stop` call right
after it declares the spill complete. -/
theorem c7_mono_first_spill (e0 : ℚ) (cfg : Config) (o : SampleOracle)
    (so : StopOracle) (g : GeoState) (h : ℕ)
    (hft : cfg.fluxType = "mono")
    (he : cfg.eventsPerSpill = ctorEventsPerSpill "mono" e0)
    (hv : o.viable = true) :
    (Sample cfg o (initSpillState h) g).1 = true ∧
    (Sample cfg o (initSpillState h) g).2.1.spillEvents = 1 ∧
    (Stop cfg so (Sample cfg o (initSpillState h) g).2.1).1 = true := by
  have he1 : cfg.eventsPerSpill = 1 := by
    rw [he]; simp +decide [ctorEventsPerSpill]
  have hs : (Sample cfg o (initSpillState h) g).2.1 =
      { spillEvents := 1, spillExposure := 0, totalExposure := 0,
        histEventsPerSpill := h } := by
    simp +decide [Sample, hft, hv, initSpillState, NtupleLike, isAtmoType]
  refine ⟨?_, ?_, ?_⟩
  · simp [Sample, hv]
  · rw [hs]
  · rw [hs]
    simp +decide [Stop, hft, he1, closeSpill, isAtmoType, NtupleLike]

/-- C7 witness: the mono configuration at a concrete oracle. -/
theorem c7_mono_first_spill_witness :
    (Sample cfgMono ⟨true, 0, 1⟩ (initSpillState 0) ⟨"volWorld"⟩).1 = true ∧
    (Sample cfgMono ⟨true, 0, 1⟩ (initSpillState 0)
        ⟨"volWorld"⟩).2.1.spillEvents = 1 ∧
    (Stop cfgMono ⟨0, 0⟩
        (Sample cfgMono ⟨true, 0, 1⟩ (initSpillState 0) ⟨"volWorld"⟩).2.1).1
      = true :=
  c7_mono_first_spill 7 cfgMono ⟨true, 0, 1⟩ ⟨0, 0⟩ ⟨"volWorld"⟩ 0 rfl
    (by simp +decide [cfgMono, ctorEventsPerSpill]) rfl

/-- C8: the rock cut spec with exactly six values installs the rock-box
selector over the given corners with the rock-only flag defaulted to
true, minimum wall distance defaulted to 800, energy-loss rate 0.00425
divided by the fudge factor 1.05, the real box cut (no tiny exclusion
sphere), and the top volume forced to the world volume beforehand. -/
theorem c8_rock_box_defaults :
    InitializeFiducialSelection "rock:0,0,0,10,10,10" =
      FidOutcome.rockInstalled
        { xyzmin := (0, 0, 0), xyzmax := (10, 10, 10), rockonly := true,
          wallmin := 800,
          dedxOverFudge := (5 / 2) * (17 / 10000) / (21 / 20),
          tinyBubble := false, topVolForcedToWorld := true } ∧
    ((5 / 2) * (17 / 10000) / (21 / 20) : ℚ) = (425 / 100000) / (105 / 100) := by
  constructor
  · with_unfolding_all rfl
  · norm_num

/-- C9 counterexample: the cut " NONE " (with trailing whitespace) does
not take the clean NoOp path: only leading whitespace is trimmed
(GENIEHelper.cxx:499-500), so the lowercased string "none " fails the
equality test and falls through to the no-colon warning path. -/
theorem c9_trailing_whitespace_cex :
    InitializeFiducialSelection " NONE " ≠ FidOutcome.noop ∧
    InitializeFiducialSelection " NONE " = FidOutcome.skipWarn := by
  with_unfolding_all decide

/-- C9 amended: the empty cut and the literal "none" (case-insensitive,
leading whitespace trimmed) yield the clean NoOp, no selector and no
diagnostic; " NONE " with trailing whitespace installs no selector either
but is reported through the parse-warning path. -/
theorem c9_none_variants :
    InitializeFiducialSelection "" = FidOutcome.noop ∧
    InitializeFiducialSelection "none" = FidOutcome.noop ∧
    InitializeFiducialSelection " NONE" = FidOutcome.noop ∧
    InitializeFiducialSelection " NONE " = FidOutcome.skipWarn := by
  with_unfolding_all decide

/-- C10: `TotalHistFlux` returns the sentinel -999 for the ntuple, mono
and simple_flux types, and otherwise the sum of the integrals of the flux
histograms the constructor loaded for the requested flavors (none outside
the histogram type, the recognized flavors for it). -/
theorem c10_totalHistFlux (ft : String) (flavors : List ℤ)
    (integral : ℤ → ℚ) :
    TotalHistFlux ft (ctorTotalHistFlux ft flavors integral) =
      if ft = "ntuple" ∨ ft = "mono" ∨ ft = "simple_flux" then -999
      else ((loadedHistFlavors ft flavors).map integral).sum := by
  unfold TotalHistFlux ctorTotalHistFlux sentinelFluxType
  rfl

end evgb
